import Mathlib

/-!
Verification development for the Prometheus telemetry-to-classification
pipeline: the offline analyzer (`analyze_player_behavior.py`, modelled over
`ℚ` since it manipulates JSON numbers with exact guard conditions) and the
online capture logic (`game.py`, modelled over `ℝ` since it uses `math.sqrt`
and `math.atan2`).
-/

namespace Prometheus

/-! ## Analyzer data model (`analyze_player_behavior.py`) -/

/-- Values of the `engagement_range_preference` feature
(`_extract_tactical_metrics`). -/
inductive EngagementRange where
  | point_blank
  | close
  | medium
  | long
  | unknown
deriving DecidableEq

/-- The flat feature map produced by `extract_features`, restricted to the
fields the scorer reads.  After `extract_features` every key is present, so
the `dict.get` defaults of the Python scorer are never consulted and a total
record is a faithful model. -/
structure Features where
  shot_accuracy : ℚ
  avg_enemy_distance : ℚ
  effective_cover_usage : ℚ
  mobility_index : ℚ
  retreat_pct : ℚ
  pursuit_pct : ℚ
  kill_rate : ℚ
  survivability : ℚ
  damage_efficiency : ℚ
  tactical_positioning_score : ℚ
  defensive_action_ratio : ℚ
  engagement_range_preference : EngagementRange

/-! ### `_calculate_aggressive_score`
Each indicator block (`score += ...`) becomes one definition; the score is
their sum, clamped by `min(score, 1.0)` exactly as the Python returns.
Numeric literals are the values of the `THRESHOLDS` table. -/

/-- Indicator 1: pursuit movement (30%).  `high = medium = 0.35`, so the
`elif > medium` branch is dead but kept for fidelity. -/
def aggressivePursuit (f : Features) : ℚ :=
  if f.pursuit_pct > 0.35 then 0.30
  else if f.pursuit_pct > 0.35 then 0.20
  else if f.pursuit_pct > 0.25 then 0.10
  else 0

/-- Indicator 2: close combat preference (30%). `close = 150`. -/
def aggressiveClose (f : Features) : ℚ :=
  if f.avg_enemy_distance < 150 then 0.30
  else if f.engagement_range_preference = EngagementRange.close then 0.20
  else if f.engagement_range_preference = EngagementRange.point_blank then 0.25
  else 0

/-- Indicator 3: high kill rate (15%). `high = medium = 0.20` (dead branch). -/
def aggressiveKillRate (f : Features) : ℚ :=
  if f.kill_rate > 0.20 then 0.15
  else if f.kill_rate > 0.20 then 0.08
  else 0

/-- Indicator 4: low cover usage (10%). `low = 0.15`, `medium = 0.30`. -/
def aggressiveLowCover (f : Features) : ℚ :=
  if f.effective_cover_usage < 0.15 then 0.10
  else if f.effective_cover_usage < 0.30 then 0.05
  else 0

/-- Indicator 5: high mobility (10%); bounds `150` and `100` are inlined in
the Python. -/
def aggressiveMobility (f : Features) : ℚ :=
  if f.mobility_index > 150 then 0.10
  else if f.mobility_index > 100 then 0.05
  else 0

/-- Indicator 6: low tactical positioning (5%). `tactical_positioning.low = 0.2`. -/
def aggressiveLowTactical (f : Features) : ℚ :=
  if f.tactical_positioning_score < 0.2 then 0.05 else 0

/-- The accumulated aggressive score before the final clamp. -/
def aggressiveRaw (f : Features) : ℚ :=
  aggressivePursuit f + aggressiveClose f + aggressiveKillRate f +
    aggressiveLowCover f + aggressiveMobility f + aggressiveLowTactical f

/-- `_calculate_aggressive_score`: the accumulated score, returned as
`min(score, 1.0)`. -/
def calculateAggressiveScore (f : Features) : ℚ :=
  min (aggressiveRaw f) 1

/-! ### `_calculate_defensive_score` -/

/-- Indicator 1: tactical positioning (25%). `high = medium = 0.4` (dead
branch), `low = 0.2`. -/
def defensiveTactical (f : Features) : ℚ :=
  if f.tactical_positioning_score > 0.4 then 0.25
  else if f.tactical_positioning_score > 0.4 then 0.15
  else if f.tactical_positioning_score > 0.2 then 0.08
  else 0

/-- Indicator 2: retreat movement (20%). `high = medium = 0.35` (dead
branch), `low = 0.25`. -/
def defensiveRetreat (f : Features) : ℚ :=
  if f.retreat_pct > 0.35 then 0.20
  else if f.retreat_pct > 0.35 then 0.12
  else if f.retreat_pct > 0.25 then 0.06
  else 0

/-- Indicator 3: distance maintenance (15%). `far = medium = 250` (dead
branch). -/
def defensiveDistance (f : Features) : ℚ :=
  if f.avg_enemy_distance > 250 then 0.15
  else if f.avg_enemy_distance > 250 then 0.10
  else if f.engagement_range_preference = EngagementRange.long ∨
      f.engagement_range_preference = EngagementRange.medium then 0.08
  else 0

/-- Indicator 4: cover usage (10%). `high = medium = 0.30` (dead branch),
`low = 0.15`. -/
def defensiveCover (f : Features) : ℚ :=
  if f.effective_cover_usage > 0.30 then 0.10
  else if f.effective_cover_usage > 0.30 then 0.07
  else if f.effective_cover_usage > 0.15 then 0.04
  else 0

/-- Indicator 5: good survivability (10%). `excellent = 1.0`, `good = 2.0`. -/
def defensiveSurvivability (f : Features) : ℚ :=
  if f.survivability < 1 then 0.10
  else if f.survivability < 2 then 0.05
  else 0

/-- Indicator 6: high accuracy (10%). `excellent = 0.60`, `good = 0.45`. -/
def defensiveAccuracy (f : Features) : ℚ :=
  if f.shot_accuracy > 0.60 then 0.10
  else if f.shot_accuracy > 0.45 then 0.06
  else 0

/-- Indicator 7: good damage efficiency (5%); bounds `2.0` and `1.5` inlined. -/
def defensiveEfficiency (f : Features) : ℚ :=
  if f.damage_efficiency > 2 then 0.05
  else if f.damage_efficiency > 1.5 then 0.03
  else 0

/-- Indicator 8: defensive actions (5%); bounds `0.1` and `0.05` inlined. -/
def defensiveActions (f : Features) : ℚ :=
  if f.defensive_action_ratio > 0.1 then 0.05
  else if f.defensive_action_ratio > 0.05 then 0.02
  else 0

/-- The accumulated defensive score before the final clamp. -/
def defensiveRaw (f : Features) : ℚ :=
  defensiveTactical f + defensiveRetreat f + defensiveDistance f +
    defensiveCover f + defensiveSurvivability f + defensiveAccuracy f +
    defensiveEfficiency f + defensiveActions f

/-- `_calculate_defensive_score`: the accumulated score, returned as
`min(score, 1.0)`. -/
def calculateDefensiveScore (f : Features) : ℚ :=
  min (defensiveRaw f) 1

/-! ### `_calculate_chaotic_score` -/

/-- Indicator 1: poor accuracy (20%). `poor = 0.30`, `good = 0.45`. -/
def chaoticAccuracy (f : Features) : ℚ :=
  if f.shot_accuracy < 0.30 then 0.20
  else if f.shot_accuracy < 0.45 then 0.10
  else 0

/-- Indicator 2: poor survivability (20%). `poor = good = 2.0` (dead branch). -/
def chaoticSurvivability (f : Features) : ℚ :=
  if f.survivability > 2 then 0.20
  else if f.survivability > 2 then 0.10
  else 0

/-- Indicator 3: no clear movement pattern (20%).  Both comparisons use
`medium = high = 0.35`, so the `elif` branch is dead. -/
def chaoticMovement (f : Features) : ℚ :=
  if f.retreat_pct < 0.35 ∧ f.pursuit_pct < 0.35 then 0.20
  else if f.retreat_pct < 0.35 ∧ f.pursuit_pct < 0.35 then 0.10
  else 0

/-- Indicator 4: poor damage efficiency (15%); bounds `1.0` and `1.5` inlined. -/
def chaoticEfficiency (f : Features) : ℚ :=
  if f.damage_efficiency < 1 then 0.15
  else if f.damage_efficiency < 1.5 then 0.08
  else 0

/-- Indicator 5: low kill rate (10%). `low = 0.10`, `medium = 0.20`. -/
def chaoticKillRate (f : Features) : ℚ :=
  if f.kill_rate < 0.10 then 0.10
  else if f.kill_rate < 0.20 then 0.05
  else 0

/-- Indicator 6, first `if`: mid-band distance (`close = 150 < d < far = 250`). -/
def chaoticMidDistance (f : Features) : ℚ :=
  if f.avg_enemy_distance > 150 ∧ f.avg_enemy_distance < 250 then 0.05 else 0

/-- Indicator 6, second `if`: low tactical score (`medium = 0.4`). -/
def chaoticLowTactical (f : Features) : ℚ :=
  if f.tactical_positioning_score < 0.4 then 0.05 else 0

/-- Indicator 7: erratic engagement (5%). -/
def chaoticUnknownRange (f : Features) : ℚ :=
  if f.engagement_range_preference = EngagementRange.unknown then 0.05 else 0

/-- The accumulated chaotic score before the final clamp. -/
def chaoticRaw (f : Features) : ℚ :=
  chaoticAccuracy f + chaoticSurvivability f + chaoticMovement f +
    chaoticEfficiency f + chaoticKillRate f + chaoticMidDistance f +
    chaoticLowTactical f + chaoticUnknownRange f

/-- `_calculate_chaotic_score`: the accumulated score, returned as
`min(score, 1.0)`. -/
def calculateChaoticScore (f : Features) : ℚ :=
  min (chaoticRaw f) 1

/-! ### `classify_behavior` -/

/-- The three archetype labels, in the insertion order of the Python `scores`
dict (`aggressive`, `defensive`, `chaotic`). -/
inductive Label where
  | aggressive
  | defensive
  | chaotic
deriving DecidableEq

/-- A score per label, mirroring the `scores` dict. -/
structure Scores where
  aggressive : ℚ
  defensive : ℚ
  chaotic : ℚ
deriving DecidableEq

/-- The three raw archetype scores of `classify_behavior`. -/
def rawScores (f : Features) : Scores :=
  { aggressive := calculateAggressiveScore f
    defensive := calculateDefensiveScore f
    chaotic := calculateChaoticScore f }

/-- `total = sum(scores.values())`. -/
def totalScore (s : Scores) : ℚ :=
  s.aggressive + s.defensive + s.chaotic

/-- The normalization step: `if total > 0: scores = {k: v/total ...}`. -/
def normalizeScores (s : Scores) : Scores :=
  if totalScore s > 0 then
    { aggressive := s.aggressive / totalScore s
      defensive := s.defensive / totalScore s
      chaotic := s.chaotic / totalScore s }
  else s

/-- One insertion step of a stable descending sort: a later input element
passes every earlier element whose value is strictly smaller and stops at the
first one whose value is at least its own. -/
def insertScoreDesc (p : Label × ℚ) : List (Label × ℚ) → List (Label × ℚ)
  | [] => [p]
  | q :: rest => if q.2 ≤ p.2 then p :: q :: rest else q :: insertScoreDesc p rest

/-- Python's `sorted(scores.items(), key=lambda x: x[1], reverse=True)`:
a stable descending sort (equal values keep their dict insertion order). -/
def sortScoresDesc : List (Label × ℚ) → List (Label × ℚ)
  | [] => []
  | p :: rest => insertScoreDesc p (sortScoresDesc rest)

/-- `scores.items()` in the dict's insertion order. -/
def scoreItems (s : Scores) : List (Label × ℚ) :=
  [(Label.aggressive, s.aggressive), (Label.defensive, s.defensive),
    (Label.chaotic, s.chaotic)]

/-- The classification record built by `classify_behavior`. -/
structure Classification where
  primary : Label
  primary_confidence : ℚ
  secondary : Label
  secondary_confidence : ℚ
  all_scores : Scores
deriving DecidableEq

/-- `classify_behavior`: score, normalize, sort descending, take the first
two entries.  The `headD` defaults are never consulted: the sorted list
always has three entries. -/
def classifyBehavior (f : Features) : Classification :=
  let scores := normalizeScores (rawScores f)
  let sortedScores := sortScoresDesc (scoreItems scores)
  { primary := (sortedScores.headD (Label.aggressive, 0)).1
    primary_confidence := (sortedScores.headD (Label.aggressive, 0)).2
    secondary := ((sortedScores.drop 1).headD (Label.aggressive, 0)).1
    secondary_confidence := ((sortedScores.drop 1).headD (Label.aggressive, 0)).2
    all_scores := scores }

/-- The primary label dictated by the claim's tie-break reading: the best
score wins and exact ties go to the earlier label in the fixed precedence
order aggressive > defensive > chaotic. -/
def tieBreakPrimary (s : Scores) : Label :=
  if s.defensive ≤ s.aggressive ∧ s.chaotic ≤ s.aggressive then Label.aggressive
  else if s.chaotic ≤ s.defensive then Label.defensive
  else Label.chaotic

/-- The secondary label dictated by the claim's tie-break reading: the best
of the two labels left once the primary is removed, ties again resolved by
the precedence order aggressive > defensive > chaotic. -/
def tieBreakSecondary (s : Scores) : Label :=
  match tieBreakPrimary s with
  | Label.aggressive =>
      if s.chaotic ≤ s.defensive then Label.defensive else Label.chaotic
  | Label.defensive =>
      if s.chaotic ≤ s.aggressive then Label.aggressive else Label.chaotic
  | Label.chaotic =>
      if s.defensive ≤ s.aggressive then Label.aggressive else Label.defensive

/-! ### `_validate_data` -/

/-- `required_fields` of `_validate_data`. -/
def requiredFields : List String :=
  ["session_id", "start_time", "player_stats", "events"]

/-- `required_stats` of `_validate_data`. -/
def requiredStats : List String :=
  ["shots_fired", "shots_hit", "total_damage_dealt",
    "total_damage_taken", "enemies_killed", "distance_traveled"]

/-- The shape of an input record as far as `_validate_data` inspects it: which
top-level keys exist, which keys exist inside `player_stats`, and whether the
`events` / `behavioral_metrics` values are lists (`none` = key absent). -/
structure RawData where
  topKeys : List String
  statsKeys : List String
  eventsIsList : Bool
  behavioralMetricsIsList : Option Bool

/-- The distinct `ValueError`s `_validate_data` can raise, each carrying the
field list its message interpolates. -/
inductive ValidationError where
  | missingFields (fields : List String)
  | missingStats (stats : List String)
  | eventsNotList
  | behavioralMetricsNotList
deriving DecidableEq

/-- The list of fields a validation error message reports as missing. -/
def ValidationError.reported : ValidationError → List String
  | ValidationError.missingFields fields => fields
  | ValidationError.missingStats stats => stats
  | ValidationError.eventsNotList => []
  | ValidationError.behavioralMetricsNotList => []

/-- `_validate_data`: check top-level fields, then `player_stats` fields, then
the two list shapes, raising at the first failing check. -/
def validateData (d : RawData) : Except ValidationError Unit :=
  let missing := requiredFields.filter (fun field => field ∉ d.topKeys)
  if missing ≠ [] then Except.error (ValidationError.missingFields missing)
  else
    let missingStatFields := requiredStats.filter (fun stat => stat ∉ d.statsKeys)
    if missingStatFields ≠ [] then
      Except.error (ValidationError.missingStats missingStatFields)
    else if d.eventsIsList = false then Except.error ValidationError.eventsNotList
    else if d.behavioralMetricsIsList = some false then
      Except.error ValidationError.behavioralMetricsNotList
    else Except.ok ()

/-! ### `_calculate_session_duration` -/

/-- An event as the duration computation reads it: only its timestamp. -/
structure Event where
  timestamp : ℚ
deriving DecidableEq

/-- The data the `ValueError` of `_calculate_session_duration` interpolates
into its message. -/
structure InvalidSession where
  endTime : ℚ
  startTime : ℚ
deriving DecidableEq

/-- `_calculate_session_duration`: `0.1` for an empty event list, an error
when the last event's timestamp precedes `start_time`, and otherwise
`max(end_time - start_time, 0.1)`. -/
def calculateSessionDuration (startTime : ℚ) (events : List Event) :
    Except InvalidSession ℚ :=
  match events.getLast? with
  | none => Except.ok 0.1
  | some lastEvent =>
      let duration := lastEvent.timestamp - startTime
      if duration < 0 then
        Except.error { endTime := lastEvent.timestamp, startTime := startTime }
      else Except.ok (max duration 0.1)

/-! ### `_extract_combat_metrics` and `_extract_risk_metrics` -/

/-- The `player_stats` counters the extractors read. -/
structure PlayerStats where
  shots_fired : ℚ
  shots_hit : ℚ
  total_damage_dealt : ℚ
  total_damage_taken : ℚ
  enemies_killed : ℚ
  distance_traveled : ℚ
  retreat_frames : ℚ
  pursuit_frames : ℚ
  neutral_frames : ℚ
deriving DecidableEq

/-- The dict returned by `_extract_combat_metrics` (the pass-through entries
that just copy `player_stats` counters are omitted). -/
structure CombatMetrics where
  shot_accuracy : ℚ
  damage_per_shot : ℚ
  engagement_efficiency : ℚ
deriving DecidableEq

/-- `_extract_combat_metrics`: each ratio is guarded by
`if shots_fired > 0 else 0`. -/
def extractCombatMetrics (stats : PlayerStats) : CombatMetrics :=
  { shot_accuracy :=
      if stats.shots_fired > 0 then stats.shots_hit / stats.shots_fired else 0
    damage_per_shot :=
      if stats.shots_fired > 0 then stats.total_damage_dealt / stats.shots_fired
      else 0
    engagement_efficiency :=
      if stats.shots_fired > 0 then stats.enemies_killed / stats.shots_fired
      else 0 }

/-- The dict returned by `_extract_risk_metrics`. -/
structure RiskMetrics where
  survivability : ℚ
  damage_efficiency : ℚ
deriving DecidableEq

/-- `_extract_risk_metrics`, with the session duration it obtains from
`_calculate_session_duration` passed in: `survivability` is guarded by
`if session_duration > 0 else 0` and `damage_efficiency` divides by
`max(total_damage_taken, 1)`. -/
def extractRiskMetrics (stats : PlayerStats) (sessionDuration : ℚ) :
    RiskMetrics :=
  { survivability :=
      if sessionDuration > 0 then stats.total_damage_taken / sessionDuration
      else 0
    damage_efficiency :=
      stats.total_damage_dealt / max stats.total_damage_taken 1 }

/-- The movement-share formulas of `_extract_spatial_metrics`:
`retreat_pct = retreat_frames / total_frames if total_frames > 0 else 0`. -/
def retreatPct (stats : PlayerStats) : ℚ :=
  let totalFrames := stats.retreat_frames + stats.pursuit_frames + stats.neutral_frames
  if totalFrames > 0 then stats.retreat_frames / totalFrames else 0

/-- `pursuit_pct` of `_extract_spatial_metrics`, same guard as `retreat_pct`. -/
def pursuitPct (stats : PlayerStats) : ℚ :=
  let totalFrames := stats.retreat_frames + stats.pursuit_frames + stats.neutral_frames
  if totalFrames > 0 then stats.pursuit_frames / totalFrames else 0

/-! ## Capture-side geometry (`game.py`), over `ℝ` -/

/-- Python's `math.atan2 y x`: the angle of the vector `(x, y)` in
`(-π, π]`, defined piecewise from `Real.arctan` quadrant by quadrant. -/
noncomputable def atan2 (y x : ℝ) : ℝ :=
  if 0 < x then Real.arctan (y / x)
  else if x < 0 then
    (if 0 ≤ y then Real.arctan (y / x) + Real.pi
    else Real.arctan (y / x) - Real.pi)
  else if 0 < y then Real.pi / 2
  else if y < 0 then -(Real.pi / 2)
  else 0

/-- The inner loop of `DataLogger._check_using_cover` over the enemies of one
cover object: return `true` at the first enemy whose `atan2` bearing to the
player and `atan2` bearing to the cover differ (as a plain absolute
difference) by less than `0.785`. -/
noncomputable def coverAngleCheck (playerPos cover : ℝ × ℝ) :
    List (ℝ × ℝ) → Bool
  | [] => false
  | enemy :: rest =>
      let enemyToPlayerAngle := atan2 (playerPos.2 - enemy.2) (playerPos.1 - enemy.1)
      let enemyToCoverAngle := atan2 (cover.2 - enemy.2) (cover.1 - enemy.1)
      if |enemyToPlayerAngle - enemyToCoverAngle| < 0.785 then true
      else coverAngleCheck playerPos cover rest

/-- The outer loop of `DataLogger._check_using_cover` over the cover objects:
a cover within `100` pixels of the player is checked against every enemy; a
farther cover is skipped. -/
noncomputable def coverScan (playerPos : ℝ × ℝ) (enemies : List (ℝ × ℝ)) :
    List (ℝ × ℝ) → Bool
  | [] => false
  | cover :: rest =>
      if Real.sqrt ((cover.1 - playerPos.1) ^ 2 + (cover.2 - playerPos.2) ^ 2) ≤ 100 then
        (if coverAngleCheck playerPos cover enemies then true
        else coverScan playerPos enemies rest)
      else coverScan playerPos enemies rest

/-- `DataLogger._check_using_cover`: `false` with no enemies, else the scan
over the cover objects. -/
noncomputable def checkUsingCover (playerPos : ℝ × ℝ)
    (enemies coverObjects : List (ℝ × ℝ)) : Bool :=
  if enemies = [] then false else coverScan playerPos enemies coverObjects

/-- The distance between two angular bearings read as directions: the
difference wrapped into `[0, π]` (angles are identified modulo `2π`). -/
noncomputable def angularDiff (a b : ℝ) : ℝ :=
  min |a - b| (2 * Real.pi - |a - b|)

/-- The using-cover predicate as the claim words it: at least one enemy, the
player within the 100-pixel radius of some cover, and for some enemy the
bearings to the player and to that cover differ, as an angular difference, by
less than the tolerance `0.785`. -/
noncomputable def usingCoverClaim (playerPos : ℝ × ℝ)
    (enemies coverObjects : List (ℝ × ℝ)) : Prop :=
  enemies ≠ [] ∧ ∃ cover ∈ coverObjects,
    Real.sqrt ((cover.1 - playerPos.1) ^ 2 + (cover.2 - playerPos.2) ^ 2) ≤ 100 ∧
    ∃ enemy ∈ enemies,
      angularDiff (atan2 (playerPos.2 - enemy.2) (playerPos.1 - enemy.1))
        (atan2 (cover.2 - enemy.2) (cover.1 - enemy.1)) < 0.785

/-! ## Movement-direction classification (`game.py`) -/

/-- The player kinematics `_calculate_movement_direction` reads: position and
per-frame velocity. -/
structure PlayerKin where
  x : ℝ
  y : ℝ
  vx : ℝ
  vy : ℝ

/-- The movement labels of `_calculate_movement_direction`. -/
inductive MovementDirection where
  | pursuit
  | retreat
  | neutral
deriving DecidableEq

/-- Python's `min(enemies, key=dist)` over `e :: rest`: a later enemy
replaces the current best only when strictly nearer, so the first minimal
enemy wins. -/
noncomputable def nearestEnemy (player : PlayerKin) (e : ℝ × ℝ)
    (rest : List (ℝ × ℝ)) : ℝ × ℝ :=
  rest.foldl
    (fun best cand =>
      if Real.sqrt ((cand.1 - player.x) ^ 2 + (cand.2 - player.y) ^ 2) <
          Real.sqrt ((best.1 - player.x) ^ 2 + (best.2 - player.y) ^ 2) then cand
      else best)
    e

/-- `DataLogger._calculate_movement_direction`: neutral with no enemies or
below the 1 px/frame speed floor; otherwise the normalized dot product with
the direction to the nearest enemy against the `±0.3` cone thresholds. -/
noncomputable def calculateMovementDirection (player : PlayerKin)
    (enemies : List (ℝ × ℝ)) : MovementDirection :=
  match enemies with
  | [] => MovementDirection.neutral
  | e :: rest =>
      let velocityMag := Real.sqrt (player.vx ^ 2 + player.vy ^ 2)
      if velocityMag < 1 then MovementDirection.neutral
      else
        let nearest := nearestEnemy player e rest
        let toEnemyX := nearest.1 - player.x
        let toEnemyY := nearest.2 - player.y
        let toEnemyMag := Real.sqrt (toEnemyX ^ 2 + toEnemyY ^ 2)
        if toEnemyMag < 0.1 then MovementDirection.neutral
        else
          let dotProduct := (player.vx / velocityMag) * (toEnemyX / toEnemyMag) +
            (player.vy / velocityMag) * (toEnemyY / toEnemyMag)
          if dotProduct > 0.3 then MovementDirection.pursuit
          else if dotProduct < -0.3 then MovementDirection.retreat
          else MovementDirection.neutral

/-- One observed frame of `DataLogger.log_frame_data`, restricted to what the
movement-direction counters consume. -/
structure Frame where
  player : PlayerKin
  enemies : List (ℝ × ℝ)

/-- The three movement-direction counters of `player_stats`. -/
structure MoveCounts where
  retreat_frames : ℕ
  pursuit_frames : ℕ
  neutral_frames : ℕ
deriving DecidableEq

/-- The counter increment of `log_frame_data` for one classified frame. -/
def bumpMoveCounts (c : MoveCounts) : MovementDirection → MoveCounts
  | MovementDirection.retreat => { c with retreat_frames := c.retreat_frames + 1 }
  | MovementDirection.pursuit => { c with pursuit_frames := c.pursuit_frames + 1 }
  | MovementDirection.neutral => { c with neutral_frames := c.neutral_frames + 1 }

/-- Folding `log_frame_data`'s movement counting over a whole session. -/
noncomputable def logMovementFrames (frames : List Frame) (init : MoveCounts) :
    MoveCounts :=
  frames.foldl
    (fun c f => bumpMoveCounts c (calculateMovementDirection f.player f.enemies))
    init

/-- The `player_stats` snapshot produced by the movement counters alone (the
other counters zero), as `_extract_spatial_metrics` would read it. -/
def statsOfCounts (c : MoveCounts) : PlayerStats :=
  { shots_fired := 0, shots_hit := 0, total_damage_dealt := 0,
    total_damage_taken := 0, enemies_killed := 0, distance_traveled := 0,
    retreat_frames := c.retreat_frames, pursuit_frames := c.pursuit_frames,
    neutral_frames := c.neutral_frames }

/-! ## `Enemy.take_damage` (`game.py`) -/

/-- The pieces of state `Enemy.take_damage` touches: the enemy's health and
the `total_damage_dealt` / `enemies_killed` counters of `player_stats`. -/
structure DamageState where
  health : ℚ
  total_damage_dealt : ℚ
  enemies_killed : ℚ
deriving DecidableEq

/-- `Enemy.take_damage`: damage is capped at the remaining health, health and
the damage-dealt counter move by exactly that capped amount, and the kill
counter increments when health reaches zero. -/
def takeDamage (s : DamageState) (damage : ℚ) : DamageState :=
  let actualDamage := min damage s.health
  let afterHit : DamageState :=
    { s with
      health := s.health - actualDamage
      total_damage_dealt := s.total_damage_dealt + actualDamage }
  if afterHit.health ≤ 0 then
    { afterHit with enemies_killed := afterHit.enemies_killed + 1 }
  else afterHit

/-! ## Theorems -/

/-- C10: with nonnegative damage and nonnegative health, `Enemy.take_damage`
never drives health negative and credits `total_damage_dealt` with exactly
`min(damage, health)`, not the nominal damage. -/
theorem takeDamage_caps_overkill (s : DamageState) (damage : ℚ)
    (hdamage : 0 ≤ damage) (hhealth : 0 ≤ s.health) :
    0 ≤ (takeDamage s damage).health ∧
      (takeDamage s damage).total_damage_dealt =
        s.total_damage_dealt + min damage s.health := by
  have hmin : min damage s.health ≤ s.health := min_le_right damage s.health
  unfold takeDamage
  dsimp only
  split_ifs <;> exact ⟨by dsimp only; linarith, rfl⟩

/-- C10 witness: an 8-damage hit on a 5-health enemy leaves health at `0` and
credits only `5` damage dealt. -/
theorem takeDamage_caps_overkill_witness :
    0 ≤ (takeDamage ⟨5, 0, 0⟩ 8).health ∧
      (takeDamage ⟨5, 0, 0⟩ 8).total_damage_dealt = 0 + min 8 5 :=
  takeDamage_caps_overkill ⟨5, 0, 0⟩ 8 (by norm_num) (by norm_num)

/-- C6: with `shots_fired = 0` the guarded combat ratios fall back to `0`,
and with `total_damage_taken = 0` the damage efficiency divides by the
guarded denominator `max(total_damage_taken, 1) = 1`. -/
theorem zero_guarded_metrics (stats : PlayerStats) (sessionDuration : ℚ) :
    (stats.shots_fired = 0 →
      (extractCombatMetrics stats).shot_accuracy = 0 ∧
        (extractCombatMetrics stats).engagement_efficiency = 0) ∧
    (stats.total_damage_taken = 0 →
      (extractRiskMetrics stats sessionDuration).damage_efficiency =
        stats.total_damage_dealt / 1) := by
  constructor
  · intro h
    simp [extractCombatMetrics, h]
  · intro h
    simp [extractRiskMetrics, h]

/-- C5: when the last event's timestamp precedes `start_time` the duration
computation fails with the `ValueError` payload; otherwise it returns
`max(end_time - start_time, 0.1)`; and every returned duration is at least
`0.1`. -/
theorem sessionDuration_spec (startTime : ℚ) (events : List Event) :
    (∀ lastEvent, events.getLast? = some lastEvent →
      (lastEvent.timestamp < startTime →
        calculateSessionDuration startTime events =
          Except.error ⟨lastEvent.timestamp, startTime⟩) ∧
      (startTime ≤ lastEvent.timestamp →
        calculateSessionDuration startTime events =
          Except.ok (max (lastEvent.timestamp - startTime) 0.1))) ∧
    (∀ q, calculateSessionDuration startTime events = Except.ok q → 0.1 ≤ q) := by
  unfold calculateSessionDuration
  cases hlast : events.getLast? with
  | none =>
      refine ⟨fun lastEvent h => by simp at h, fun q hq => ?_⟩
      simp only [Except.ok.injEq] at hq
      rw [← hq]
  | some lastEvent =>
      dsimp only
      refine ⟨fun l hl => ?_, fun q hq => ?_⟩
      · obtain rfl : lastEvent = l := Option.some.inj hl
        constructor
        · intro hlt
          rw [if_pos (by linarith)]
        · intro hle
          rw [if_neg (by linarith)]
      · by_cases hneg : lastEvent.timestamp - startTime < 0
        · rw [if_pos hneg] at hq
          exact absurd hq (by simp)
        · rw [if_neg hneg] at hq
          simp only [Except.ok.injEq] at hq
          rw [← hq]
          exact le_max_right _ _

/-- C4 counterexample: a record missing `session_id` at top level and
`shots_fired` inside `player_stats` fails with an error that lists only
`session_id`: the missing nested stat is not reported, so the error does not
list every missing field. -/
theorem validateData_drops_nested_missing :
    validateData
        { topKeys := ["start_time", "player_stats", "events"],
          statsKeys := ["shots_hit", "total_damage_dealt", "total_damage_taken",
            "enemies_killed", "distance_traveled"],
          eventsIsList := true, behavioralMetricsIsList := none } =
      Except.error (ValidationError.missingFields ["session_id"]) ∧
    "shots_fired" ∈ requiredStats ∧
    "shots_fired" ∉ ["shots_hit", "total_damage_dealt", "total_damage_taken",
      "enemies_killed", "distance_traveled"] ∧
    "shots_fired" ∉
      (ValidationError.missingFields ["session_id"]).reported := by
  refine ⟨?_, by decide, by decide, by decide⟩
  rfl

/-- C4 amended: validation fails fast whenever a required top-level or
nested field is missing, and the error lists every missing field of the
tier it reports — all missing top-level fields when any top-level field is
missing, otherwise all missing `player_stats` fields.  Missing nested
fields are not listed while top-level fields are also missing. -/
theorem validateData_reports_missing_tier (d : RawData)
    (h : requiredFields.filter (fun field => field ∉ d.topKeys) ≠ [] ∨
      requiredStats.filter (fun stat => stat ∉ d.statsKeys) ≠ []) :
    ∃ e, validateData d = Except.error e ∧
      ValidationError.reported e =
        (if requiredFields.filter (fun field => field ∉ d.topKeys) ≠ [] then
          requiredFields.filter (fun field => field ∉ d.topKeys)
        else requiredStats.filter (fun stat => stat ∉ d.statsKeys)) := by
  unfold validateData
  by_cases htop : requiredFields.filter (fun field => field ∉ d.topKeys) ≠ []
  · refine ⟨ValidationError.missingFields _, by rw [if_pos htop], ?_⟩
    rw [if_pos htop]
    exact rfl
  · have hstats : requiredStats.filter (fun stat => stat ∉ d.statsKeys) ≠ [] :=
      h.resolve_left htop
    refine ⟨ValidationError.missingStats
      (requiredStats.filter (fun stat => stat ∉ d.statsKeys)), ?_, ?_⟩
    · rw [if_neg htop]
      dsimp only
      rw [if_pos hstats]
    · rw [if_neg htop]
      exact rfl

/-- C4 witness: on the counterexample record the amended theorem reports
exactly the missing top-level field list `["session_id"]`. -/
theorem validateData_reports_missing_tier_witness :
    ∃ e, validateData
        { topKeys := ["start_time", "player_stats", "events"],
          statsKeys := ["shots_fired", "shots_hit", "total_damage_dealt",
            "total_damage_taken", "enemies_killed"],
          eventsIsList := true, behavioralMetricsIsList := none } =
      Except.error e ∧
      ValidationError.reported e =
        (if requiredFields.filter (fun field => field ∉
            (["start_time", "player_stats", "events"] : List String)) ≠ [] then
          requiredFields.filter (fun field => field ∉
            (["start_time", "player_stats", "events"] : List String))
        else requiredStats.filter (fun stat => stat ∉
          (["shots_fired", "shots_hit", "total_damage_dealt",
            "total_damage_taken", "enemies_killed"] : List String))) :=
  validateData_reports_missing_tier _ (Or.inl (by decide))

/-! Per-indicator weight-budget bounds, shared by several claims. -/

/-- The indicator contribution `aggressivePursuit` stays within its weight budget. -/
theorem aggressivePursuit_bounds (f : Features) : 0 ≤ aggressivePursuit f ∧ aggressivePursuit f ≤ 0.30 := by
  unfold aggressivePursuit
  split_ifs <;> norm_num

/-- The indicator contribution `aggressiveClose` stays within its weight budget. -/
theorem aggressiveClose_bounds (f : Features) : 0 ≤ aggressiveClose f ∧ aggressiveClose f ≤ 0.30 := by
  unfold aggressiveClose
  split_ifs <;> norm_num

/-- The indicator contribution `aggressiveKillRate` stays within its weight budget. -/
theorem aggressiveKillRate_bounds (f : Features) : 0 ≤ aggressiveKillRate f ∧ aggressiveKillRate f ≤ 0.15 := by
  unfold aggressiveKillRate
  split_ifs <;> norm_num

/-- The indicator contribution `aggressiveLowCover` stays within its weight budget. -/
theorem aggressiveLowCover_bounds (f : Features) : 0 ≤ aggressiveLowCover f ∧ aggressiveLowCover f ≤ 0.10 := by
  unfold aggressiveLowCover
  split_ifs <;> norm_num

/-- The indicator contribution `aggressiveMobility` stays within its weight budget. -/
theorem aggressiveMobility_bounds (f : Features) : 0 ≤ aggressiveMobility f ∧ aggressiveMobility f ≤ 0.10 := by
  unfold aggressiveMobility
  split_ifs <;> norm_num

/-- The indicator contribution `aggressiveLowTactical` stays within its weight budget. -/
theorem aggressiveLowTactical_bounds (f : Features) : 0 ≤ aggressiveLowTactical f ∧ aggressiveLowTactical f ≤ 0.05 := by
  unfold aggressiveLowTactical
  split_ifs <;> norm_num

/-- The indicator contribution `defensiveTactical` stays within its weight budget. -/
theorem defensiveTactical_bounds (f : Features) : 0 ≤ defensiveTactical f ∧ defensiveTactical f ≤ 0.25 := by
  unfold defensiveTactical
  split_ifs <;> norm_num

/-- The indicator contribution `defensiveRetreat` stays within its weight budget. -/
theorem defensiveRetreat_bounds (f : Features) : 0 ≤ defensiveRetreat f ∧ defensiveRetreat f ≤ 0.20 := by
  unfold defensiveRetreat
  split_ifs <;> norm_num

/-- The indicator contribution `defensiveDistance` stays within its weight budget. -/
theorem defensiveDistance_bounds (f : Features) : 0 ≤ defensiveDistance f ∧ defensiveDistance f ≤ 0.15 := by
  unfold defensiveDistance
  split_ifs <;> norm_num

/-- The indicator contribution `defensiveCover` stays within its weight budget. -/
theorem defensiveCover_bounds (f : Features) : 0 ≤ defensiveCover f ∧ defensiveCover f ≤ 0.10 := by
  unfold defensiveCover
  split_ifs <;> norm_num

/-- The indicator contribution `defensiveSurvivability` stays within its weight budget. -/
theorem defensiveSurvivability_bounds (f : Features) : 0 ≤ defensiveSurvivability f ∧ defensiveSurvivability f ≤ 0.10 := by
  unfold defensiveSurvivability
  split_ifs <;> norm_num

/-- The indicator contribution `defensiveAccuracy` stays within its weight budget. -/
theorem defensiveAccuracy_bounds (f : Features) : 0 ≤ defensiveAccuracy f ∧ defensiveAccuracy f ≤ 0.10 := by
  unfold defensiveAccuracy
  split_ifs <;> norm_num

/-- The indicator contribution `defensiveEfficiency` stays within its weight budget. -/
theorem defensiveEfficiency_bounds (f : Features) : 0 ≤ defensiveEfficiency f ∧ defensiveEfficiency f ≤ 0.05 := by
  unfold defensiveEfficiency
  split_ifs <;> norm_num

/-- The indicator contribution `defensiveActions` stays within its weight budget. -/
theorem defensiveActions_bounds (f : Features) : 0 ≤ defensiveActions f ∧ defensiveActions f ≤ 0.05 := by
  unfold defensiveActions
  split_ifs <;> norm_num

/-- The indicator contribution `chaoticAccuracy` stays within its weight budget. -/
theorem chaoticAccuracy_bounds (f : Features) : 0 ≤ chaoticAccuracy f ∧ chaoticAccuracy f ≤ 0.20 := by
  unfold chaoticAccuracy
  split_ifs <;> norm_num

/-- The indicator contribution `chaoticSurvivability` stays within its weight budget. -/
theorem chaoticSurvivability_bounds (f : Features) : 0 ≤ chaoticSurvivability f ∧ chaoticSurvivability f ≤ 0.20 := by
  unfold chaoticSurvivability
  split_ifs <;> norm_num

/-- The indicator contribution `chaoticMovement` stays within its weight budget. -/
theorem chaoticMovement_bounds (f : Features) : 0 ≤ chaoticMovement f ∧ chaoticMovement f ≤ 0.20 := by
  unfold chaoticMovement
  split_ifs <;> norm_num

/-- The indicator contribution `chaoticEfficiency` stays within its weight budget. -/
theorem chaoticEfficiency_bounds (f : Features) : 0 ≤ chaoticEfficiency f ∧ chaoticEfficiency f ≤ 0.15 := by
  unfold chaoticEfficiency
  split_ifs <;> norm_num

/-- The indicator contribution `chaoticKillRate` stays within its weight budget. -/
theorem chaoticKillRate_bounds (f : Features) : 0 ≤ chaoticKillRate f ∧ chaoticKillRate f ≤ 0.10 := by
  unfold chaoticKillRate
  split_ifs <;> norm_num

/-- The indicator contribution `chaoticMidDistance` stays within its weight budget. -/
theorem chaoticMidDistance_bounds (f : Features) : 0 ≤ chaoticMidDistance f ∧ chaoticMidDistance f ≤ 0.05 := by
  unfold chaoticMidDistance
  split_ifs <;> norm_num

/-- The indicator contribution `chaoticLowTactical` stays within its weight budget. -/
theorem chaoticLowTactical_bounds (f : Features) : 0 ≤ chaoticLowTactical f ∧ chaoticLowTactical f ≤ 0.05 := by
  unfold chaoticLowTactical
  split_ifs <;> norm_num

/-- The indicator contribution `chaoticUnknownRange` stays within its weight budget. -/
theorem chaoticUnknownRange_bounds (f : Features) : 0 ≤ chaoticUnknownRange f ∧ chaoticUnknownRange f ≤ 0.05 := by
  unfold chaoticUnknownRange
  split_ifs <;> norm_num

/-- The accumulated aggressive score lies in `[0, 1]`: the per-indicator maxima
sum to exactly `1.0`. -/
theorem aggressiveRaw_bounds (f : Features) : 0 ≤ aggressiveRaw f ∧ aggressiveRaw f ≤ 1 := by
  obtain ⟨h0a, h0b⟩ := aggressivePursuit_bounds f
  obtain ⟨h1a, h1b⟩ := aggressiveClose_bounds f
  obtain ⟨h2a, h2b⟩ := aggressiveKillRate_bounds f
  obtain ⟨h3a, h3b⟩ := aggressiveLowCover_bounds f
  obtain ⟨h4a, h4b⟩ := aggressiveMobility_bounds f
  obtain ⟨h5a, h5b⟩ := aggressiveLowTactical_bounds f
  unfold aggressiveRaw
  constructor <;> linarith

/-- The accumulated defensive score lies in `[0, 1]`: the per-indicator maxima
sum to exactly `1.0`. -/
theorem defensiveRaw_bounds (f : Features) : 0 ≤ defensiveRaw f ∧ defensiveRaw f ≤ 1 := by
  obtain ⟨h0a, h0b⟩ := defensiveTactical_bounds f
  obtain ⟨h1a, h1b⟩ := defensiveRetreat_bounds f
  obtain ⟨h2a, h2b⟩ := defensiveDistance_bounds f
  obtain ⟨h3a, h3b⟩ := defensiveCover_bounds f
  obtain ⟨h4a, h4b⟩ := defensiveSurvivability_bounds f
  obtain ⟨h5a, h5b⟩ := defensiveAccuracy_bounds f
  obtain ⟨h6a, h6b⟩ := defensiveEfficiency_bounds f
  obtain ⟨h7a, h7b⟩ := defensiveActions_bounds f
  unfold defensiveRaw
  constructor <;> linarith

/-- The accumulated chaotic score lies in `[0, 1]`: the per-indicator maxima
sum to exactly `1.0`. -/
theorem chaoticRaw_bounds (f : Features) : 0 ≤ chaoticRaw f ∧ chaoticRaw f ≤ 1 := by
  obtain ⟨h0a, h0b⟩ := chaoticAccuracy_bounds f
  obtain ⟨h1a, h1b⟩ := chaoticSurvivability_bounds f
  obtain ⟨h2a, h2b⟩ := chaoticMovement_bounds f
  obtain ⟨h3a, h3b⟩ := chaoticEfficiency_bounds f
  obtain ⟨h4a, h4b⟩ := chaoticKillRate_bounds f
  obtain ⟨h5a, h5b⟩ := chaoticMidDistance_bounds f
  obtain ⟨h6a, h6b⟩ := chaoticLowTactical_bounds f
  obtain ⟨h7a, h7b⟩ := chaoticUnknownRange_bounds f
  unfold chaoticRaw
  constructor <;> linarith

/-- C3: each raw archetype score already lies in `[0, 1]` before the final
`min(score, 1.0)` clamp, so the clamp never changes the returned value. -/
theorem raw_scores_in_unit_interval (f : Features) :
    (0 ≤ aggressiveRaw f ∧ aggressiveRaw f ≤ 1 ∧
      calculateAggressiveScore f = aggressiveRaw f) ∧
    (0 ≤ defensiveRaw f ∧ defensiveRaw f ≤ 1 ∧
      calculateDefensiveScore f = defensiveRaw f) ∧
    (0 ≤ chaoticRaw f ∧ chaoticRaw f ≤ 1 ∧
      calculateChaoticScore f = chaoticRaw f) := by
  obtain ⟨ha0, ha1⟩ := aggressiveRaw_bounds f
  obtain ⟨hd0, hd1⟩ := defensiveRaw_bounds f
  obtain ⟨hc0, hc1⟩ := chaoticRaw_bounds f
  exact ⟨⟨ha0, ha1, min_eq_left ha1⟩, ⟨hd0, hd1, min_eq_left hd1⟩,
    ⟨hc0, hc1, min_eq_left hc1⟩⟩

/-- Only the retreat indicator of the defensive score reads `retreat_pct`,
and its contribution is monotone in it. -/
theorem defensiveRetreat_monotone (f : Features) (r1 r2 : ℚ) (h : r1 ≤ r2) :
    defensiveRetreat { f with retreat_pct := r1 } ≤
      defensiveRetreat { f with retreat_pct := r2 } := by
  unfold defensiveRetreat
  dsimp only
  split_ifs <;> linarith

/-- C9: increasing `retreat_pct` with every other feature held fixed never
decreases the defensive raw score (and hence the returned clamped score). -/
theorem defensive_score_monotone_in_retreat (f : Features) (r1 r2 : ℚ)
    (h : r1 ≤ r2) :
    calculateDefensiveScore { f with retreat_pct := r1 } ≤
      calculateDefensiveScore { f with retreat_pct := r2 } := by
  have hr := defensiveRetreat_monotone f r1 r2 h
  have htac : defensiveTactical { f with retreat_pct := r1 } =
      defensiveTactical { f with retreat_pct := r2 } := rfl
  have hdist : defensiveDistance { f with retreat_pct := r1 } =
      defensiveDistance { f with retreat_pct := r2 } := rfl
  have hcov : defensiveCover { f with retreat_pct := r1 } =
      defensiveCover { f with retreat_pct := r2 } := rfl
  have hsurv : defensiveSurvivability { f with retreat_pct := r1 } =
      defensiveSurvivability { f with retreat_pct := r2 } := rfl
  have hacc : defensiveAccuracy { f with retreat_pct := r1 } =
      defensiveAccuracy { f with retreat_pct := r2 } := rfl
  have heff : defensiveEfficiency { f with retreat_pct := r1 } =
      defensiveEfficiency { f with retreat_pct := r2 } := rfl
  have hact : defensiveActions { f with retreat_pct := r1 } =
      defensiveActions { f with retreat_pct := r2 } := rfl
  have hraw : defensiveRaw { f with retreat_pct := r1 } ≤
      defensiveRaw { f with retreat_pct := r2 } := by
    unfold defensiveRaw
    rw [htac, hdist, hcov, hsurv, hacc, heff, hact]
    linarith
  exact min_le_min hraw le_rfl

/-- C9 witness: raising `retreat_pct` from `0.2` to `0.4` on an otherwise
fixed feature vector does not decrease the defensive score. -/
theorem defensive_score_monotone_in_retreat_witness :
    calculateDefensiveScore
        { shot_accuracy := 0.5, avg_enemy_distance := 200,
          effective_cover_usage := 0.2, mobility_index := 50,
          retreat_pct := 0.2, pursuit_pct := 0.1, kill_rate := 0.15,
          survivability := 1.5, damage_efficiency := 1.2,
          tactical_positioning_score := 0.3, defensive_action_ratio := 0.08,
          engagement_range_preference := EngagementRange.medium } ≤
      calculateDefensiveScore
        { shot_accuracy := 0.5, avg_enemy_distance := 200,
          effective_cover_usage := 0.2, mobility_index := 50,
          retreat_pct := 0.4, pursuit_pct := 0.1, kill_rate := 0.15,
          survivability := 1.5, damage_efficiency := 1.2,
          tactical_positioning_score := 0.3, defensive_action_ratio := 0.08,
          engagement_range_preference := EngagementRange.medium } :=
  defensive_score_monotone_in_retreat
    { shot_accuracy := 0.5, avg_enemy_distance := 200,
      effective_cover_usage := 0.2, mobility_index := 50,
      retreat_pct := 0, pursuit_pct := 0.1, kill_rate := 0.15,
      survivability := 1.5, damage_efficiency := 1.2,
      tactical_positioning_score := 0.3, defensive_action_ratio := 0.08,
      engagement_range_preference := EngagementRange.medium }
    0.2 0.4 (by norm_num)

/-- Each returned archetype score is nonnegative. -/
theorem rawScores_nonneg (f : Features) :
    0 ≤ (rawScores f).aggressive ∧ 0 ≤ (rawScores f).defensive ∧
      0 ≤ (rawScores f).chaotic :=
  ⟨le_min (aggressiveRaw_bounds f).1 zero_le_one,
    le_min (defensiveRaw_bounds f).1 zero_le_one,
    le_min (chaoticRaw_bounds f).1 zero_le_one⟩

/-- Normalization behaviour for any nonnegative score triple: the normalized
values sum to `1` when some raw value is nonzero, and are all zero exactly
when every raw value is zero. -/
theorem normalizeScores_spec (s : Scores) (ha : 0 ≤ s.aggressive)
    (hd : 0 ≤ s.defensive) (hc : 0 ≤ s.chaotic) :
    ((s.aggressive ≠ 0 ∨ s.defensive ≠ 0 ∨ s.chaotic ≠ 0) →
      (normalizeScores s).aggressive + (normalizeScores s).defensive +
        (normalizeScores s).chaotic = 1) ∧
    ((normalizeScores s).aggressive = 0 ∧ (normalizeScores s).defensive = 0 ∧
        (normalizeScores s).chaotic = 0 ↔
      s.aggressive = 0 ∧ s.defensive = 0 ∧ s.chaotic = 0) := by
  by_cases hpos : totalScore s > 0
  · have ht : totalScore s ≠ 0 := ne_of_gt hpos
    have hnorm : normalizeScores s =
        { aggressive := s.aggressive / totalScore s,
          defensive := s.defensive / totalScore s,
          chaotic := s.chaotic / totalScore s } := if_pos hpos
    have hsum : (normalizeScores s).aggressive + (normalizeScores s).defensive +
        (normalizeScores s).chaotic = 1 := by
      rw [hnorm]
      dsimp only
      rw [div_add_div_same, div_add_div_same]
      exact div_self ht
    refine ⟨fun _ => hsum, ?_, ?_⟩
    · rintro ⟨h1, h2, h3⟩
      rw [hnorm] at h1 h2 h3
      dsimp only at h1 h2 h3
      exact ⟨by rcases div_eq_zero_iff.mp h1 with h | h; exact h; exact absurd h ht,
        by rcases div_eq_zero_iff.mp h2 with h | h; exact h; exact absurd h ht,
        by rcases div_eq_zero_iff.mp h3 with h | h; exact h; exact absurd h ht⟩
    · rintro ⟨h1, h2, h3⟩
      exfalso
      have : totalScore s = 0 := by
        unfold totalScore
        rw [h1, h2, h3]
        norm_num
      exact ht this
  · have hzero : s.aggressive = 0 ∧ s.defensive = 0 ∧ s.chaotic = 0 := by
      have hle : totalScore s ≤ 0 := not_lt.mp hpos
      unfold totalScore at hle
      exact ⟨by linarith, by linarith, by linarith⟩
    have hnorm : normalizeScores s = s := if_neg hpos
    refine ⟨fun hne => ?_, ?_⟩
    · rcases hne with h | h | h <;> [exact absurd hzero.1 h;
        exact absurd hzero.2.1 h; exact absurd hzero.2.2 h]
    · rw [hnorm]

/-- The distribution `classify_behavior` stores in `all_scores` is exactly
the normalized raw-score triple. -/
theorem classifyBehavior_all_scores (f : Features) :
    (classifyBehavior f).all_scores = normalizeScores (rawScores f) := rfl

/-- C1: after `classify_behavior`, the `all_scores` values sum to `1`
whenever some raw archetype score is nonzero, and they are all zero exactly
when every raw score was zero (normalization is skipped exactly when the raw
sum is `0`). -/
theorem classify_scores_normalized (f : Features) :
    (((rawScores f).aggressive ≠ 0 ∨ (rawScores f).defensive ≠ 0 ∨
        (rawScores f).chaotic ≠ 0) →
      (classifyBehavior f).all_scores.aggressive +
        (classifyBehavior f).all_scores.defensive +
        (classifyBehavior f).all_scores.chaotic = 1) ∧
    ((classifyBehavior f).all_scores.aggressive = 0 ∧
        (classifyBehavior f).all_scores.defensive = 0 ∧
        (classifyBehavior f).all_scores.chaotic = 0 ↔
      (rawScores f).aggressive = 0 ∧ (rawScores f).defensive = 0 ∧
        (rawScores f).chaotic = 0) := by
  obtain ⟨ha, hd, hc⟩ := rawScores_nonneg f
  rw [classifyBehavior_all_scores]
  exact normalizeScores_spec (rawScores f) ha hd hc

/-- The stable descending sort of the three-entry score list selects as head
the best label with ties resolved toward the earlier dict entry, and as
second entry the best of the rest under the same rule. -/
theorem sorted_selection (s : Scores) :
    ((sortScoresDesc (scoreItems s)).headD (Label.aggressive, 0)).1 =
      tieBreakPrimary s ∧
    (((sortScoresDesc (scoreItems s)).drop 1).headD (Label.aggressive, 0)).1 =
      tieBreakSecondary s := by
  rcases le_or_lt s.chaotic s.defensive with h1 | h1
  · rcases le_or_lt s.defensive s.aggressive with h2 | h2
    · simp [sortScoresDesc, scoreItems, insertScoreDesc, tieBreakPrimary,
        tieBreakSecondary, h1, h2, le_trans h1 h2]
    · rcases le_or_lt s.chaotic s.aggressive with h3 | h3
      · simp [sortScoresDesc, scoreItems, insertScoreDesc, tieBreakPrimary,
          tieBreakSecondary, h1, h3, not_le.mpr h2]
      · simp [sortScoresDesc, scoreItems, insertScoreDesc, tieBreakPrimary,
          tieBreakSecondary, h1, not_le.mpr h2, not_le.mpr h3]
  · rcases le_or_lt s.chaotic s.aggressive with h3 | h3
    · simp [sortScoresDesc, scoreItems, insertScoreDesc, tieBreakPrimary,
        tieBreakSecondary, h3, h1.le.trans h3, not_le.mpr h1]
    · rcases le_or_lt s.defensive s.aggressive with h2 | h2
      · simp [sortScoresDesc, scoreItems, insertScoreDesc, tieBreakPrimary,
          tieBreakSecondary, h2, not_le.mpr h1, not_le.mpr h3]
      · simp [sortScoresDesc, scoreItems, insertScoreDesc, tieBreakPrimary,
          tieBreakSecondary, not_le.mpr h1, not_le.mpr h2, not_le.mpr h3]

/-- C8: `classify_behavior` breaks exact score ties deterministically by the
fixed dict insertion order aggressive > defensive > chaotic: the primary and
secondary labels always equal the precedence-based selection computed from
the normalized scores. -/
theorem classify_tie_break (f : Features) :
    (classifyBehavior f).primary =
      tieBreakPrimary ((classifyBehavior f).all_scores) ∧
    (classifyBehavior f).secondary =
      tieBreakSecondary ((classifyBehavior f).all_scores) := by
  have h := sorted_selection (normalizeScores (rawScores f))
  exact ⟨h.1, h.2⟩

/-- Below the 1 px/frame speed floor the movement classifier answers neutral
regardless of the enemy configuration. -/
theorem slow_is_neutral (player : PlayerKin) (enemies : List (ℝ × ℝ))
    (h : Real.sqrt (player.vx ^ 2 + player.vy ^ 2) < 1) :
    calculateMovementDirection player enemies = MovementDirection.neutral := by
  cases enemies with
  | nil => rfl
  | cons e rest =>
      unfold calculateMovementDirection
      dsimp only
      rw [if_pos h]

/-- Folding the per-frame movement counting over frames that are all below
the speed floor only advances the neutral counter. -/
theorem logMovementFrames_stationary (frames : List Frame) (init : MoveCounts)
    (h : ∀ fr ∈ frames, Real.sqrt (fr.player.vx ^ 2 + fr.player.vy ^ 2) < 1) :
    logMovementFrames frames init =
      { retreat_frames := init.retreat_frames
        pursuit_frames := init.pursuit_frames
        neutral_frames := init.neutral_frames + frames.length } := by
  induction frames generalizing init with
  | nil => cases init; simp [logMovementFrames]
  | cons fr rest ih =>
      have hfr := h fr (List.mem_cons_self fr rest)
      have hdir : calculateMovementDirection fr.player fr.enemies =
          MovementDirection.neutral := slow_is_neutral fr.player fr.enemies hfr
      have hrest : ∀ g ∈ rest, Real.sqrt (g.player.vx ^ 2 + g.player.vy ^ 2) < 1 :=
        fun g hg => h g (List.mem_cons_of_mem fr hg)
      unfold logMovementFrames at ih ⊢
      rw [List.foldl_cons]
      rw [hdir, ih _ hrest]
      simp only [bumpMoveCounts, MoveCounts.mk.injEq, List.length_cons]
      exact ⟨trivial, trivial, by omega⟩

/-- C7: any frame whose velocity magnitude is below the speed floor counts
as neutral, and a session of stationary frames with a single enemy yields
only neutral frames, hence `retreat_pct = 0` and `pursuit_pct = 0`. -/
theorem stationary_session_all_neutral :
    (∀ (player : PlayerKin) (enemies : List (ℝ × ℝ)),
      Real.sqrt (player.vx ^ 2 + player.vy ^ 2) < 1 →
      calculateMovementDirection player enemies = MovementDirection.neutral) ∧
    (∀ frames : List Frame,
      (∀ fr ∈ frames, fr.player.vx = 0 ∧ fr.player.vy = 0 ∧
        ∃ e, fr.enemies = [e]) →
      (logMovementFrames frames ⟨0, 0, 0⟩).retreat_frames = 0 ∧
        (logMovementFrames frames ⟨0, 0, 0⟩).pursuit_frames = 0 ∧
        (logMovementFrames frames ⟨0, 0, 0⟩).neutral_frames = frames.length ∧
        retreatPct (statsOfCounts (logMovementFrames frames ⟨0, 0, 0⟩)) = 0 ∧
        pursuitPct (statsOfCounts (logMovementFrames frames ⟨0, 0, 0⟩)) = 0) := by
  refine ⟨slow_is_neutral, fun frames h => ?_⟩
  have hslow : ∀ fr ∈ frames, Real.sqrt (fr.player.vx ^ 2 + fr.player.vy ^ 2) < 1 := by
    intro fr hfr
    obtain ⟨hx, hy, -⟩ := h fr hfr
    rw [hx, hy]
    norm_num
  have hcounts := logMovementFrames_stationary frames ⟨0, 0, 0⟩ hslow
  rw [hcounts]
  refine ⟨rfl, rfl, by simp, ?_, ?_⟩
  · unfold retreatPct statsOfCounts
    dsimp only
    split_ifs <;> simp
  · unfold pursuitPct statsOfCounts
    dsimp only
    split_ifs <;> simp

/-! ## C2: the cover-usage check -/

/-- The enemy loop of `_check_using_cover` succeeds exactly when some listed
enemy passes the bearing comparison. -/
theorem coverAngleCheck_iff (p c : ℝ × ℝ) (es : List (ℝ × ℝ)) :
    coverAngleCheck p c es = true ↔
      ∃ e ∈ es, |atan2 (p.2 - e.2) (p.1 - e.1) -
        atan2 (c.2 - e.2) (c.1 - e.1)| < 0.785 := by
  induction es with
  | nil => simp [coverAngleCheck]
  | cons e rest ih =>
      unfold coverAngleCheck
      by_cases h : |atan2 (p.2 - e.2) (p.1 - e.1) -
          atan2 (c.2 - e.2) (c.1 - e.1)| < 0.785
      · simp [h]
      · simp [h, ih]

/-- The cover loop of `_check_using_cover` succeeds exactly when some listed
cover is within 100 pixels and passes the enemy loop. -/
theorem coverScan_iff (p : ℝ × ℝ) (es cs : List (ℝ × ℝ)) :
    coverScan p es cs = true ↔
      ∃ c ∈ cs, Real.sqrt ((c.1 - p.1) ^ 2 + (c.2 - p.2) ^ 2) ≤ 100 ∧
        coverAngleCheck p c es = true := by
  induction cs with
  | nil => simp [coverScan]
  | cons c rest ih =>
      unfold coverScan
      by_cases hd : Real.sqrt ((c.1 - p.1) ^ 2 + (c.2 - p.2) ^ 2) ≤ 100
      · by_cases ha : coverAngleCheck p c es = true
        · simp [hd, ha]
        · simp [hd, ha, ih]
      · simp [hd, ih]

/-- C2 amended: the using-cover check returns true exactly when at least one
enemy exists and, for some cover within the 100-pixel radius and some enemy,
the two `atan2` bearings differ by less than `0.785` as a plain absolute
difference of values in `(-π, π]` — without identifying angles modulo `2π`,
so bearings that straddle the `±π` cut are compared across the full circle. -/
theorem checkUsingCover_characterization (playerPos : ℝ × ℝ)
    (enemies coverObjects : List (ℝ × ℝ)) :
    checkUsingCover playerPos enemies coverObjects = true ↔
      enemies ≠ [] ∧ ∃ cover ∈ coverObjects,
        Real.sqrt ((cover.1 - playerPos.1) ^ 2 +
          (cover.2 - playerPos.2) ^ 2) ≤ 100 ∧
        ∃ enemy ∈ enemies,
          |atan2 (playerPos.2 - enemy.2) (playerPos.1 - enemy.1) -
            atan2 (cover.2 - enemy.2) (cover.1 - enemy.1)| < 0.785 := by
  unfold checkUsingCover
  by_cases he : enemies = []
  · simp [he]
  · rw [if_neg he, coverScan_iff]
    simp [coverAngleCheck_iff, he]

/-- `arctan` is dominated by the identity on the nonnegative axis. -/
theorem arctan_le_self_of_nonneg {x : ℝ} (hx : 0 ≤ x) : Real.arctan x ≤ x := by
  have h0 : 0 ≤ Real.arctan x := by
    have h := Real.arctan_strictMono.monotone hx
    rwa [Real.arctan_zero] at h
  have h := Real.le_tan h0 (Real.arctan_lt_pi_div_two x)
  rwa [Real.tan_arctan] at h

/-- The bearing of the direction `(-1, 0)`: straight along the negative
x-axis, the positive cut value `π`. -/
theorem atan2_zero_neg_one : atan2 0 (-1) = Real.pi := by
  unfold atan2
  rw [if_neg (by norm_num : ¬ (0:ℝ) < -1), if_pos (by norm_num : (-1:ℝ) < 0),
    if_pos (le_refl (0:ℝ))]
  norm_num

/-- The bearing of the direction `(-10, -1)`: just below the negative
x-axis, a value close to `-π`. -/
theorem atan2_neg_one_neg_ten : atan2 (-1) (-10) = Real.arctan (1 / 10) - Real.pi := by
  unfold atan2
  rw [if_neg (by norm_num : ¬ (0:ℝ) < -10), if_pos (by norm_num : (-10:ℝ) < 0),
    if_neg (by norm_num : ¬ (0:ℝ) ≤ -1)]
  norm_num

/-- C2 counterexample: player at `(-1, 0)`, one enemy at the origin, one
cover at `(-10, -1)`.  The enemy-to-player bearing is `π` and the
enemy-to-cover bearing is `arctan(1/10) - π`, so the true angular difference
is tiny (about 0.0997 rad) and the claim's conditions all hold, yet the code
compares `|π - (arctan(1/10) - π)| ≈ 6.18 ≥ 0.785` and answers false. -/
theorem checkUsingCover_wraparound_counterexample :
    usingCoverClaim (-1, 0) [(0, 0)] [(-10, -1)] ∧
      checkUsingCover (-1, 0) [(0, 0)] [(-10, -1)] = false := by
  have ht0 : 0 ≤ Real.arctan (1 / 10) := by
    have h := Real.arctan_strictMono.monotone (by norm_num : (0:ℝ) ≤ 1 / 10)
    rwa [Real.arctan_zero] at h
  have ht1 : Real.arctan (1 / 10) ≤ 1 / 10 := arctan_le_self_of_nonneg (by norm_num)
  have htpi : Real.arctan (1 / 10) < Real.pi / 2 := Real.arctan_lt_pi_div_two _
  have hpi : (3:ℝ) < Real.pi := Real.pi_gt_three
  have hsub : Real.pi - (Real.arctan (1 / 10) - Real.pi) =
      2 * Real.pi - Real.arctan (1 / 10) := by ring
  have hdiff : |Real.pi - (Real.arctan (1 / 10) - Real.pi)| =
      2 * Real.pi - Real.arctan (1 / 10) := by
    rw [hsub, abs_of_nonneg (by linarith)]
  have hnotlt : ¬ |Real.pi - (Real.arctan (1 / 10) - Real.pi)| < 0.785 := by
    rw [hdiff]
    exact not_lt.mpr (by linarith)
  have hsqrt : Real.sqrt (((-10:ℝ) - -1) ^ 2 + ((-1:ℝ) - 0) ^ 2) ≤ 100 := by
    have h82 : ((-10:ℝ) - -1) ^ 2 + ((-1:ℝ) - 0) ^ 2 = 82 := by norm_num
    rw [h82]
    calc Real.sqrt 82 ≤ Real.sqrt (100 ^ 2) :=
          Real.sqrt_le_sqrt (by norm_num)
      _ = 100 := Real.sqrt_sq (by norm_num)
  have hb1 : atan2 ((0:ℝ) - 0) ((-1:ℝ) - 0) = Real.pi := by
    norm_num [atan2_zero_neg_one]
  have hb2 : atan2 ((-1:ℝ) - 0) ((-10:ℝ) - 0) = Real.arctan (1 / 10) - Real.pi := by
    norm_num [atan2_neg_one_neg_ten]
  constructor
  · refine ⟨by simp, (-10, -1), by simp, hsqrt, (0, 0), by simp, ?_⟩
    unfold angularDiff
    dsimp only
    rw [hb1, hb2, hdiff]
    have hmin : min (2 * Real.pi - Real.arctan (1 / 10))
        (2 * Real.pi - (2 * Real.pi - Real.arctan (1 / 10))) =
          Real.arctan (1 / 10) := by
      rw [show 2 * Real.pi - (2 * Real.pi - Real.arctan (1 / 10)) =
        Real.arctan (1 / 10) by ring]
      exact min_eq_right (by linarith)
    rw [hmin]
    linarith
  · have hangle : coverAngleCheck ((-1:ℝ), (0:ℝ)) ((-10:ℝ), (-1:ℝ))
        [((0:ℝ), (0:ℝ))] = false := by
      unfold coverAngleCheck
      dsimp only
      rw [hb1, hb2, if_neg hnotlt]
      rfl
    unfold checkUsingCover
    rw [if_neg (by simp)]
    unfold coverScan
    dsimp only
    rw [if_pos hsqrt, hangle]
    rfl

end Prometheus
